import Mathlib

/-
Shallow embedding of the request-handling pipeline of the paralympics REST API
(src/paralympics/routes.py) over an explicit store state, together with proofs
of the specified per-route behaviour.

The store is a pair of row lists (Region, Event).  Each Flask route handler is
embedded as a pure function from the store (plus the request's path key and
JSON body) to a result carrying: the HTTP outcome (a response with status and
JSON body, or an uncaught exception propagating as a server error), the store
afterwards, and the number of durable commits performed.

models.py and schemas.py are not among the sources; the row shapes and the
Marshmallow schema load/dump behaviour are modelled from the spec (sections 3,
4.2 and 6), marked `Modelled from the spec:` below.  routes.py itself is
embedded verbatim in structure: which lookups are wrapped in try/except, which
filter_by attribute each lookup uses, the exact message strings, and the order
existence-check / load / commit.
-/

namespace Paralympics

/-- Modelled from the spec: a Region row (models.py is absent from the sources).
Primary key `NOC` (string code), required display name `region`, optional
`notes`. -/
structure Region where
  NOC : String
  region : String
  notes : Option String
deriving DecidableEq, Repr

/-- Modelled from the spec: an Event row (models.py is absent from the sources).
Integer primary key `id` assigned by the store; the remaining attributes are
treated opaquely as a field-name-to-scalar-value mapping, as the spec does. -/
structure Event where
  id : Nat
  fields : List (String × String)
deriving DecidableEq, Repr

/-- The relational store reachable through the session: the Region rows, the
Event rows, and the next auto-generated Event primary key. -/
structure DB where
  regions : List Region
  events : List Event
  nextEventId : Nat
deriving DecidableEq, Repr

/-- Exceptions that the storage or validation layer can raise.  `noResultFound`
and `multipleResultsFound` come from scalar_one, `invalidRequestError` from
filter_by on an attribute the mapper does not define, `integrityError` from a
commit violating NOT NULL or primary-key uniqueness. -/
inductive Exc where
  | noResultFound
  | multipleResultsFound
  | invalidRequestError
  | integrityError
deriving DecidableEq, Repr

/-- JSON response bodies produced by the handlers. -/
inductive Body where
  | errorObj (msg : String)
  | msgObj (msg : String)
  | regionObj (r : Region)
  | regionList (rs : List Region)
  | eventObj (e : Event)
  | eventList (es : List Event)
  | fieldErrors (errs : List (String × List String))
  | emptyObj
deriving DecidableEq, Repr

/-- Outcome of one request: an HTTP response, or an exception that escaped the
handler (Flask turns it into a 500 server error). -/
inductive Outcome where
  | resp (status : Nat) (body : Body)
  | raised (e : Exc)
deriving DecidableEq, Repr

/-- Result of running one handler: the outcome, the store afterwards, and how
many durable commits the handler performed. -/
structure HResult where
  outcome : Outcome
  db : DB
  commits : Nat
deriving DecidableEq, Repr

/-- db.select(Region).filter_by(NOC=code): the Region rows whose NOC equals the
given code. -/
def selectRegionsByNOC (db : DB) (code : String) : List Region :=
  db.regions.filter (fun r => r.NOC == code)

/-- db.select(Event).filter_by(id=i): the Event rows whose primary key equals
the given id. -/
def selectEventsById (db : DB) (i : Nat) : List Event :=
  db.events.filter (fun e => e.id == i)

/-- scalar_one(): exactly one row, else NoResultFound / MultipleResultsFound. -/
def scalarOne {α : Type} (rows : List α) : Except Exc α :=
  match rows with
  | [] => .error .noResultFound
  | [a] => .ok a
  | _ => .error .multipleResultsFound

/-- scalar_one_or_none(): at most one row, none is an explicit absent value. -/
def scalarOneOrNone {α : Type} (rows : List α) : Except Exc (Option α) :=
  match rows with
  | [] => .ok none
  | [a] => .ok (some a)
  | _ => .error .multipleResultsFound

/-- db.select(Event).filter_by(event_id=...), as written in event_update.
Modelled from the spec: the Event mapper defines no attribute named event_id
(its primary key is `id`, and section 9 of the spec records that the PATCH
lookup field name is inconsistent with the primary key used elsewhere), so
SQLAlchemy rejects the filter_by keyword with InvalidRequestError before any
row is consulted. -/
def selectEventsByEventIdAttr (_db : DB) (_v : String) : Except Exc (List Event) :=
  .error .invalidRequestError

/-- A JSON body for a Region request.  A field is `none` when absent from the
JSON; `notes = some none` encodes an explicit JSON null. -/
structure RegionJson where
  NOC : Option String
  region : Option String
  notes : Option (Option String)
deriving DecidableEq, Repr

/-- A JSON body for an Event request: an opaque field-name-to-value mapping,
as the spec treats Event attributes. -/
abbrev EventJson := List (String × String)

/-- Modelled from the spec: the per-field messages a full-schema Region load
produces for missing mandatory fields (NOC and region are required, notes is
optional). -/
def regionMissingFields (j : RegionJson) : List (String × List String) :=
  (if j.NOC.isNone then [("NOC", ["Missing data for required field."])] else []) ++
  (if j.region.isNone then [("region", ["Missing data for required field."])] else [])

/-- Modelled from the spec: region_schema.load in full mode — every mandatory
field must be present, otherwise a ValidationError enumerating the offending
fields. -/
def regionLoadFull (j : RegionJson) : Except (List (String × List String)) Region :=
  match j.NOC, j.region with
  | some n, some r => .ok { NOC := n, region := r, notes := j.notes.getD none }
  | _, _ => .error (regionMissingFields j)

/-- Modelled from the spec: region_schema.load in partial mode against a merge
target — only the fields present in the JSON are applied, absent fields keep
the target's values. -/
def regionPatchLoad (j : RegionJson) (inst : Region) : Region :=
  { NOC := j.NOC.getD inst.NOC
    region := j.region.getD inst.region
    notes := j.notes.getD inst.notes }

/-- Modelled from the spec: the Event schema's mandatory payload fields.  The
spec leaves Event attributes unenumerated ("treated opaquely"), so a concrete
representative list is fixed here; no claim depends on which names appear. -/
def eventRequiredFields : List String := ["type", "year"]

/-- Modelled from the spec: the per-field messages a full-schema Event load
produces — one entry per mandatory field absent from the payload. -/
def eventMissingFields (j : EventJson) : List (String × List String) :=
  (eventRequiredFields.filter (fun f => !(j.any (fun p => p.1 == f)))).map
    (fun f => (f, ["Missing data for required field."]))

/-- Modelled from the spec: event_schema.load in full mode — succeeds with the
payload's field mapping when every mandatory field is present, otherwise a
ValidationError naming each missing field. -/
def eventLoadFull (j : EventJson) : Except (List (String × List String)) EventJson :=
  if (eventMissingFields j).isEmpty then .ok j else .error (eventMissingFields j)

/-- Modelled from the spec: partial-mode merge of an Event JSON body into an
existing field mapping — fields named in the body are overwritten, the rest
kept. -/
def mergeFields (base : List (String × String)) (upd : List (String × String)) :
    List (String × String) :=
  upd.foldl
    (fun acc kv =>
      if acc.any (fun p => p.1 == kv.1)
      then acc.map (fun p => if p.1 == kv.1 then kv else p)
      else acc ++ [kv])
    base

/-- Committing an INSERT of a Region row: fails with IntegrityError when the
primary key NOC collides with a stored row, otherwise the row becomes durable. -/
def insertRegionCommit (db : DB) (r : Region) : Except Exc DB :=
  if db.regions.any (fun x => x.NOC == r.NOC)
  then .error .integrityError
  else .ok { db with regions := db.regions ++ [r] }

/-- Committing an UPDATE of the Region row fetched under `oldNoc` to the merged
value: fails with IntegrityError when the merge changed the primary key to one
already stored, otherwise the fetched row is replaced. -/
def updateRegionCommit (db : DB) (oldNoc : String) (r : Region) : Except Exc DB :=
  if r.NOC != oldNoc && db.regions.any (fun x => x.NOC == r.NOC)
  then .error .integrityError
  else .ok { db with regions := db.regions.map (fun x => if x.NOC == oldNoc then r else x) }

/-- GET /regions — list all regions, no mutation, no commit. -/
def get_regions (db : DB) : HResult :=
  ⟨.resp 200 (.regionList db.regions), db, 0⟩

/-- GET /regions/(code) — scalar_one inside try/except NoResultFound: a miss
aborts with 404 and the registered 404 errorhandler renders
jsonify(error=str(e)). -/
def get_region (db : DB) (code : String) : HResult :=
  match scalarOne (selectRegionsByNOC db code) with
  | .ok r => ⟨.resp 200 (.regionObj r), db, 0⟩
  | .error .noResultFound => ⟨.resp 404 (.errorObj "404 Not Found: Region not found."), db, 0⟩
  | .error e => ⟨.raised e, db, 0⟩

/-- GET /events — list all events, no mutation, no commit. -/
def get_events (db : DB) : HResult :=
  ⟨.resp 200 (.eventList db.events), db, 0⟩

/-- GET /events/(event_id) — scalar_one with no try/except: a miss raises
NoResultFound, which no handler catches. -/
def get_event (db : DB) (event_id : Nat) : HResult :=
  match scalarOne (selectEventsById db event_id) with
  | .ok e => ⟨.resp 200 (.eventObj e), db, 0⟩
  | .error e => ⟨.raised e, db, 0⟩

/-- POST /events — full-schema load inside try/except ValidationError (400 via
handle_validation_error), then add + commit, then 201 with
message "Event added with id= {event.id}". -/
def add_event (db : DB) (j : EventJson) : HResult :=
  match eventLoadFull j with
  | .error msgs => ⟨.resp 400 (.fieldErrors msgs), db, 0⟩
  | .ok fs =>
      ⟨.resp 201 (.msgObj ("Event added with id= " ++ toString db.nextEventId)),
       { db with
          events := db.events ++ [⟨db.nextEventId, fs⟩]
          nextEventId := db.nextEventId + 1 },
       1⟩

/-- POST /regions — full-schema load inside try/except ValidationError (400 via
handle_validation_error), then add + commit (a primary-key collision at commit
is uncaught), then 201 with message "Region added with NOC= {region.NOC}". -/
def add_region (db : DB) (j : RegionJson) : HResult :=
  match regionLoadFull j with
  | .error msgs => ⟨.resp 400 (.fieldErrors msgs), db, 0⟩
  | .ok r =>
      match insertRegionCommit db r with
      | .error e => ⟨.raised e, db, 0⟩
      | .ok db2 => ⟨.resp 201 (.msgObj ("Region added with NOC= " ++ r.NOC)), db2, 1⟩

/-- DELETE /events/(int:event_id) — scalar_one with no try/except (a miss
raises NoResultFound uncaught), then delete + commit, then a 200 message dict. -/
def delete_event (db : DB) (event_id : Nat) : HResult :=
  match scalarOne (selectEventsById db event_id) with
  | .error e => ⟨.raised e, db, 0⟩
  | .ok _ =>
      ⟨.resp 200 (.msgObj ("Event " ++ toString event_id ++ " deleted")),
       { db with events := db.events.filter (fun x => !(x.id == event_id)) },
       1⟩

/-- DELETE /regions/(noc_code) — scalar_one with no try/except (a miss raises
NoResultFound uncaught), then delete + commit, then a 200 message dict. -/
def delete_region (db : DB) (noc_code : String) : HResult :=
  match scalarOne (selectRegionsByNOC db noc_code) with
  | .error e => ⟨.raised e, db, 0⟩
  | .ok _ =>
      ⟨.resp 200 (.msgObj ("Region " ++ noc_code ++ " deleted")),
       { db with regions := db.regions.filter (fun x => !(x.NOC == noc_code)) },
       1⟩

/-- PATCH /regions/(noc_code) — scalar_one_or_none, then a partial-mode load
against whatever was found (the absent case is never tested: the load then runs
with no merge target and builds a fresh transient row from the body alone,
failing at commit when a mandatory field is missing), commit, re-query by the
path key, and 200 with the dump of the re-queried row. -/
def region_update (db : DB) (noc_code : String) (j : RegionJson) : HResult :=
  match scalarOneOrNone (selectRegionsByNOC db noc_code) with
  | .error e => ⟨.raised e, db, 0⟩
  | .ok (some existing) =>
      match updateRegionCommit db noc_code (regionPatchLoad j existing) with
      | .error e => ⟨.raised e, db, 0⟩
      | .ok db2 =>
          match scalarOneOrNone (selectRegionsByNOC db2 noc_code) with
          | .error e => ⟨.raised e, db2, 1⟩
          | .ok (some r) => ⟨.resp 200 (.regionObj r), db2, 1⟩
          | .ok none => ⟨.resp 200 .emptyObj, db2, 1⟩
  | .ok none =>
      match j.NOC, j.region with
      | some n, some r =>
          match insertRegionCommit db ⟨n, r, j.notes.getD none⟩ with
          | .error e => ⟨.raised e, db, 0⟩
          | .ok db2 =>
              match scalarOneOrNone (selectRegionsByNOC db2 noc_code) with
              | .error e => ⟨.raised e, db2, 1⟩
              | .ok (some rr) => ⟨.resp 200 (.regionObj rr), db2, 1⟩
              | .ok none => ⟨.resp 200 .emptyObj, db2, 1⟩
      | _, _ => ⟨.raised .integrityError, db, 0⟩

/-- PATCH /events/(event_id) — the lookup filters by the attribute event_id,
which the Event mapper does not define, so the very first select raises
InvalidRequestError for every request; the remaining source lines (partial
load, commit, re-query by the same attribute) are embedded below them but are
unreachable. -/
def event_update (db : DB) (event_id : String) (j : EventJson) : HResult :=
  match selectEventsByEventIdAttr db event_id with
  | .error e => ⟨.raised e, db, 0⟩
  | .ok rows =>
      match scalarOneOrNone rows with
      | .error e => ⟨.raised e, db, 0⟩
      | .ok (some existing) =>
          match selectEventsByEventIdAttr
              { db with
                 events := db.events.map
                   (fun x => if x.id == existing.id
                             then ⟨existing.id, mergeFields existing.fields j⟩ else x) }
              event_id with
          | .error e =>
              ⟨.raised e,
               { db with
                  events := db.events.map
                    (fun x => if x.id == existing.id
                              then ⟨existing.id, mergeFields existing.fields j⟩ else x) },
               1⟩
          | .ok rows2 =>
              match scalarOneOrNone rows2 with
              | .error e => ⟨.raised e, db, 1⟩
              | .ok (some r) => ⟨.resp 200 (.eventObj r), db, 1⟩
              | .ok none => ⟨.resp 200 .emptyObj, db, 1⟩
      | .ok none =>
          match selectEventsByEventIdAttr
              { db with
                 events := db.events ++ [⟨db.nextEventId, j⟩]
                 nextEventId := db.nextEventId + 1 }
              event_id with
          | .error e =>
              ⟨.raised e,
               { db with
                  events := db.events ++ [⟨db.nextEventId, j⟩]
                  nextEventId := db.nextEventId + 1 },
               1⟩
          | .ok rows2 =>
              match scalarOneOrNone rows2 with
              | .error e => ⟨.raised e, db, 1⟩
              | .ok (some r) => ⟨.resp 200 (.eventObj r), db, 1⟩
              | .ok none => ⟨.resp 200 .emptyObj, db, 1⟩

/-- An outcome is a 404 response with a JSON error body holding a non-empty
error string. -/
def isNotFoundJson : Outcome → Bool
  | .resp s (.errorObj m) => s == 404 && decide (0 < m.length)
  | _ => false

/-- An outcome is a failure: a raised exception or a 4xx-or-worse response. -/
def isFailure : Outcome → Bool
  | .raised _ => true
  | .resp s _ => decide (400 ≤ s)

/-- An outcome is a success response: status 200 or 201. -/
def isSuccess : Outcome → Bool
  | .resp s _ => s == 200 || s == 201
  | .raised _ => false

/-- An empty store. -/
def dbEmpty : DB := ⟨[], [], 1⟩

/-- The Region of the spec's concrete scenario. -/
def rNEW : Region := ⟨"NEW", "A new region", none⟩

/-- A stored Event with primary key 1. -/
def eOne : Event := ⟨1, [("type", "summer"), ("year", "2012")]⟩

/-- A store holding one Region and one Event. -/
def dbOne : DB := ⟨[rNEW], [eOne], 2⟩

/-- The PATCH /events handler raises InvalidRequestError on every input: its
very first select filters by an attribute the Event mapper does not define. -/
theorem event_update_raises (db : DB) (eid : String) (je : EventJson) :
    event_update db eid je = ⟨.raised .invalidRequestError, db, 0⟩ := rfl

/-- Reduction of scalar_one_or_none on an empty row list. -/
theorem scalarOneOrNone_nil {α : Type} : scalarOneOrNone ([] : List α) = .ok none := rfl

/-- Reduction of scalar_one_or_none on a single row. -/
theorem scalarOneOrNone_single {α : Type} (a : α) : scalarOneOrNone [a] = .ok (some a) := rfl

/-- Reduction of scalar_one on a single row. -/
theorem scalarOne_single {α : Type} (a : α) : scalarOne [a] = .ok a := rfl

/-- When the filter for a NOC returns no row, no stored Region carries it. -/
theorem regions_absent_any_false (db : DB) (n : String)
    (h : selectRegionsByNOC db n = []) :
    db.regions.any (fun x => x.NOC == n) = false := by
  rw [Bool.eq_false_iff]
  intro hany
  rw [List.any_eq_true] at hany
  obtain ⟨x, hx, hpx⟩ := hany
  exact (List.filter_eq_nil_iff.mp h x hx) hpx

/-- C2: the Event PATCH handler evaluated at a failing input — a store holding
the Event with primary key 1 and a PATCH to /events/1 — does not find that
event as the merge target: the lookup filters by the unmapped attribute
event_id, so InvalidRequestError is raised before any row is consulted, the
store is untouched, and no stored event can ever be found for update. -/
theorem C2_event_patch_lookup_broken :
    event_update dbOne "1" [("type", "winter")] =
      ⟨.raised .invalidRequestError, dbOne, 0⟩ := rfl

/-- C3 counterexample: on a store with no events, GET /events/5 does not
produce the claimed 404 JSON error response — the uncaught NoResultFound
escapes the handler as a server error. -/
theorem C3_counterexample :
    isNotFoundJson (get_event dbEmpty 5).outcome = false ∧
    (get_event dbEmpty 5).outcome = .raised .noResultFound := ⟨rfl, rfl⟩

/-- C3 (amended): GET /regions responds 404 with a non-empty JSON error string
when the path code matches no region and 200 with the region object when it
matches exactly one; GET /events responds 200 with the event object when the
path id matches exactly one event, but on an absent id the handler's
NoResultFound escapes as a server error instead of the claimed 404 JSON body. -/
theorem C3_get_by_key (db : DB) (ca cp : String) (r : Region) (ia ip : Nat) (e : Event)
    (hra : selectRegionsByNOC db ca = [])
    (hrp : selectRegionsByNOC db cp = [r])
    (hea : selectEventsById db ia = [])
    (hep : selectEventsById db ip = [e]) :
    get_region db ca = ⟨.resp 404 (.errorObj "404 Not Found: Region not found."), db, 0⟩ ∧
    isNotFoundJson (get_region db ca).outcome = true ∧
    get_region db cp = ⟨.resp 200 (.regionObj r), db, 0⟩ ∧
    get_event db ip = ⟨.resp 200 (.eventObj e), db, 0⟩ ∧
    get_event db ia = ⟨.raised .noResultFound, db, 0⟩ ∧
    isNotFoundJson (get_event db ia).outcome = false := by
  refine ⟨?_, ?_, ?_, ?_, ?_, ?_⟩ <;>
    simp [get_region, get_event, hra, hrp, hea, hep, scalarOne, isNotFoundJson]
  decide

/-- C3 witness: the amended GET behaviour at a concrete store holding the
Region NEW and the Event 1, probed at the absent keys XX and 5. -/
theorem C3_get_by_key_witness :
    isNotFoundJson (get_region dbOne "XX").outcome = true ∧
    (get_event dbOne 5).outcome = .raised .noResultFound :=
  ⟨(C3_get_by_key dbOne "XX" "NEW" rNEW 5 1 eOne rfl rfl rfl rfl).2.1,
   congrArg HResult.outcome (C3_get_by_key dbOne "XX" "NEW" rNEW 5 1 eOne rfl rfl rfl rfl).2.2.2.2.1⟩

/-- C4 counterexample: DELETE /regions/NEW on a store without that region does
not return the claimed 404 JSON error body — the uncaught NoResultFound
escapes the handler as a server error. -/
theorem C4_counterexample :
    isNotFoundJson (delete_region dbEmpty "NEW").outcome = false ∧
    delete_region dbEmpty "NEW" = ⟨.raised .noResultFound, dbEmpty, 0⟩ := ⟨rfl, rfl⟩

/-- C4 (amended): a DELETE whose path key matches no stored entity — including
an already-deleted key — deletes nothing and is not a second success, but the
lookup's NoResultFound escapes the handler as a server error instead of the
claimed 404 JSON error body, for both resources. -/
theorem C4_delete_absent (db : DB) (noc : String) (i : Nat)
    (hr : selectRegionsByNOC db noc = [])
    (he : selectEventsById db i = []) :
    delete_region db noc = ⟨.raised .noResultFound, db, 0⟩ ∧
    delete_event db i = ⟨.raised .noResultFound, db, 0⟩ ∧
    isNotFoundJson (delete_region db noc).outcome = false ∧
    isNotFoundJson (delete_event db i).outcome = false ∧
    isSuccess (delete_region db noc).outcome = false ∧
    isSuccess (delete_event db i).outcome = false := by
  refine ⟨?_, ?_, ?_, ?_, ?_, ?_⟩ <;>
    simp [delete_region, delete_event, hr, he, scalarOne, isNotFoundJson, isSuccess]

/-- C4 witness: deleting the already-absent keys NEW and 5 on the empty store
raises NoResultFound rather than answering 404 or succeeding again. -/
theorem C4_delete_absent_witness :
    delete_region dbEmpty "NEW" = ⟨.raised .noResultFound, dbEmpty, 0⟩ ∧
    isSuccess (delete_event dbEmpty 5).outcome = false :=
  ⟨(C4_delete_absent dbEmpty "NEW" 5 rfl rfl).1,
   (C4_delete_absent dbEmpty "NEW" 5 rfl rfl).2.2.2.2.2⟩

/-- C6 counterexample: the valid creation payload of the spec's concrete
scenario makes POST /regions answer 201 with message
"Region added with NOC= NEW", which is not of the claimed shape
"Region added with id=NEW" — the Region message is keyed by NOC, not id. -/
theorem C6_counterexample :
    (add_region dbEmpty ⟨some "NEW", some "A new region", none⟩).outcome =
      .resp 201 (.msgObj "Region added with NOC= NEW") ∧
    "Region added with NOC= NEW" ≠ "Region added with id=NEW" := ⟨rfl, by decide⟩

/-- C6 (amended): a valid full creation payload yields 201 with one commit and
the entity stored; the Event message is "Event added with id= <id>" — a space
after the equals sign, <id> being the store-assigned primary key — while the
Region message is "Region added with NOC= <NOC>", keyed by NOC rather than id. -/
theorem C6_post_created (db : DB) (j : RegionJson) (n r : String) (je : EventJson)
    (h1 : j.NOC = some n) (h2 : j.region = some r)
    (h3 : selectRegionsByNOC db n = [])
    (h4 : eventLoadFull je = .ok je) :
    (add_region db j).outcome = .resp 201 (.msgObj ("Region added with NOC= " ++ n)) ∧
    (add_event db je).outcome =
      .resp 201 (.msgObj ("Event added with id= " ++ toString db.nextEventId)) ∧
    (⟨n, r, j.notes.getD none⟩ : Region) ∈ (add_region db j).db.regions ∧
    (⟨db.nextEventId, je⟩ : Event) ∈ (add_event db je).db.events ∧
    (add_region db j).commits = 1 ∧ (add_event db je).commits = 1 := by
  have hany := regions_absent_any_false db n h3
  refine ⟨?_, ?_, ?_, ?_, ?_, ?_⟩ <;>
    simp [add_region, add_event, regionLoadFull, insertRegionCommit, h1, h2, h4, hany]

/-- C6 witness: the amended creation behaviour at the spec's concrete Region
payload and a full Event payload on the empty store. -/
theorem C6_post_created_witness :
    (add_region dbEmpty ⟨some "NEW", some "A new region", none⟩).outcome =
      .resp 201 (.msgObj ("Region added with NOC= " ++ "NEW")) ∧
    (add_event dbEmpty [("type", "s"), ("year", "2012")]).outcome =
      .resp 201 (.msgObj ("Event added with id= " ++ toString dbEmpty.nextEventId)) :=
  ⟨(C6_post_created dbEmpty ⟨some "NEW", some "A new region", none⟩ "NEW" "A new region"
      [("type", "s"), ("year", "2012")] rfl rfl rfl rfl).1,
   (C6_post_created dbEmpty ⟨some "NEW", some "A new region", none⟩ "NEW" "A new region"
      [("type", "s"), ("year", "2012")] rfl rfl rfl rfl).2.1⟩

/-- C7: a DELETE whose path key matches a stored entity answers 200 with the
JSON message "Region <key> deleted" / "Event <key> deleted", the key being the
path key of the deleted entity. -/
theorem C7_delete_success (db : DB) (noc : String) (r : Region) (i : Nat) (e : Event)
    (hr : selectRegionsByNOC db noc = [r])
    (he : selectEventsById db i = [e]) :
    (delete_region db noc).outcome = .resp 200 (.msgObj ("Region " ++ noc ++ " deleted")) ∧
    (delete_event db i).outcome = .resp 200 (.msgObj ("Event " ++ toString i ++ " deleted")) := by
  constructor <;> simp [delete_region, delete_event, hr, he, scalarOne]

/-- C7 witness: deleting the stored Region NEW and the stored Event 1 yields
the two success messages. -/
theorem C7_delete_success_witness :
    (delete_region dbOne "NEW").outcome = .resp 200 (.msgObj ("Region " ++ "NEW" ++ " deleted")) ∧
    (delete_event dbOne 1).outcome = .resp 200 (.msgObj ("Event " ++ toString 1 ++ " deleted")) :=
  C7_delete_success dbOne "NEW" rNEW 1 eOne rfl rfl

/-- C1 counterexample: PATCH /regions/XX with body {"notes": "x"} on a store
with no region XX does not return the claimed 404 — the handler never tests
the optional lookup's result, the partial load builds a fresh transient row
missing its mandatory fields, and the commit's IntegrityError escapes as a
server error. -/
theorem C1_counterexample :
    isNotFoundJson (region_update dbEmpty "XX" ⟨none, none, some (some "x")⟩).outcome = false ∧
    region_update dbEmpty "XX" ⟨none, none, some (some "x")⟩ =
      ⟨.raised .integrityError, dbEmpty, 0⟩ := ⟨rfl, rfl⟩

/-- C1 (amended): a PATCH whose path key matches no stored entity is never
answered 404.  The Region handler proceeds past the untested lookup: the body
becomes a fresh row (inserted when it carries the mandatory fields, otherwise
the commit fails as a server error); every Region already stored survives and
the Event table is untouched.  The Event handler fails at its lookup with
InvalidRequestError for every key.  In no case is an existing stored entity
updated. -/
theorem C1_patch_absent_no_404 (db : DB) (noc : String) (j : RegionJson)
    (eid : String) (je : EventJson)
    (h : selectRegionsByNOC db noc = []) :
    isNotFoundJson (region_update db noc j).outcome = false ∧
    (∀ r, r ∈ db.regions → r ∈ (region_update db noc j).db.regions) ∧
    (region_update db noc j).db.events = db.events ∧
    event_update db eid je = ⟨.raised .invalidRequestError, db, 0⟩ ∧
    isNotFoundJson (event_update db eid je).outcome = false := by
  refine ⟨?_, ?_, ?_, event_update_raises db eid je, ?_⟩
  · obtain ⟨jn, jr, jns⟩ := j
    simp only [region_update, h, scalarOneOrNone_nil]
    cases jn with
    | none => simp [isNotFoundJson]
    | some n =>
      cases jr with
      | none => simp [isNotFoundJson]
      | some r =>
        cases hins : insertRegionCommit db ⟨n, r, jns.getD none⟩ with
        | error e => simp [hins, isNotFoundJson]
        | ok db2 =>
          cases hq : scalarOneOrNone (selectRegionsByNOC db2 noc) with
          | error e => simp [hins, hq, isNotFoundJson]
          | ok o => cases o <;> simp [hins, hq, isNotFoundJson]
  · obtain ⟨jn, jr, jns⟩ := j
    simp only [region_update, h, scalarOneOrNone_nil]
    cases jn with
    | none => simp
    | some n =>
      cases jr with
      | none => simp
      | some r =>
        cases hins : insertRegionCommit db ⟨n, r, jns.getD none⟩ with
        | error e => simp [hins]
        | ok db2 =>
          have hdb2 : db2.regions = db.regions ++ [⟨n, r, jns.getD none⟩] := by
            unfold insertRegionCommit at hins
            split at hins
            · simp at hins
            · obtain rfl : _ = db2 := by injection hins
              rfl
          cases hq : scalarOneOrNone (selectRegionsByNOC db2 noc) with
          | error e =>
            simp [hins, hq, hdb2]
            intro x hx
            exact Or.inl hx
          | ok o =>
            cases o <;> simp [hins, hq, hdb2] <;> intro x hx <;> exact Or.inl hx
  · obtain ⟨jn, jr, jns⟩ := j
    simp only [region_update, h, scalarOneOrNone_nil]
    cases jn with
    | none => simp
    | some n =>
      cases jr with
      | none => simp
      | some r =>
        cases hins : insertRegionCommit db ⟨n, r, jns.getD none⟩ with
        | error e => simp [hins]
        | ok db2 =>
          have hdb2 : db2.events = db.events := by
            unfold insertRegionCommit at hins
            split at hins
            · simp at hins
            · obtain rfl : _ = db2 := by injection hins
              rfl
          cases hq : scalarOneOrNone (selectRegionsByNOC db2 noc) with
          | error e => simp [hins, hq, hdb2]
          | ok o => cases o <;> simp [hins, hq, hdb2]
  · rw [event_update_raises]
    rfl

/-- C1 witness: the amended PATCH behaviour probed at the empty store under the
absent region key XX and the event key 1. -/
theorem C1_patch_absent_no_404_witness :
    isNotFoundJson (region_update dbEmpty "XX" ⟨none, none, some (some "x")⟩).outcome = false ∧
    event_update dbEmpty "1" [] = ⟨.raised .invalidRequestError, dbEmpty, 0⟩ :=
  ⟨(C1_patch_absent_no_404 dbEmpty "XX" ⟨none, none, some (some "x")⟩ "1" [] rfl).1,
   (C1_patch_absent_no_404 dbEmpty "XX" ⟨none, none, some (some "x")⟩ "1" [] rfl).2.2.2.1⟩

/-- C5: a POST payload missing a mandatory field is answered 400 with a JSON
body mapping each offending field name to a non-empty list of error strings —
in particular the missing field is named — and the store is left untouched;
this covers POST /regions (mandatory NOC and region) and POST /events. -/
theorem C5_post_validation (db : DB) (j : RegionJson) (je : EventJson) (f : String)
    (hj : j.NOC = none ∨ j.region = none)
    (hf : f ∈ eventRequiredFields)
    (hje : je.any (fun p => p.1 == f) = false) :
    add_region db j = ⟨.resp 400 (.fieldErrors (regionMissingFields j)), db, 0⟩ ∧
    (j.NOC = none → ("NOC", ["Missing data for required field."]) ∈ regionMissingFields j) ∧
    (j.region = none → ("region", ["Missing data for required field."]) ∈ regionMissingFields j) ∧
    (∀ p ∈ regionMissingFields j, p.2 ≠ []) ∧
    add_event db je = ⟨.resp 400 (.fieldErrors (eventMissingFields je)), db, 0⟩ ∧
    (f, ["Missing data for required field."]) ∈ eventMissingFields je ∧
    (∀ p ∈ eventMissingFields je, p.2 ≠ []) := by
  have hmem : (f, ["Missing data for required field."]) ∈ eventMissingFields je := by
    unfold eventMissingFields
    refine List.mem_map.mpr ⟨f, ?_, rfl⟩
    exact List.mem_filter.mpr ⟨hf, by simp [hje]⟩
  refine ⟨?_, ?_, ?_, ?_, ?_, hmem, ?_⟩
  · obtain ⟨jn, jr, jns⟩ := j
    cases jn with
    | none => cases jr <;> simp [add_region, regionLoadFull]
    | some n =>
      cases jr with
      | some r => rcases hj with h | h <;> simp at h
      | none => simp [add_region, regionLoadFull]
  · intro h
    simp [regionMissingFields, h]
  · intro h
    simp [regionMissingFields, h]
  · intro p hp
    unfold regionMissingFields at hp
    rcases List.mem_append.mp hp with h | h <;> split at h <;> simp at h <;> simp [h]
  · have hne : (eventMissingFields je).isEmpty = false := by
      cases hlst : eventMissingFields je with
      | nil => rw [hlst] at hmem; simp at hmem
      | cons a l => rfl
    simp [add_event, eventLoadFull, hne]
  · intro p hp
    unfold eventMissingFields at hp
    obtain ⟨g, _, rfl⟩ := List.mem_map.mp hp
    simp

/-- C5 witness: a Region payload missing its NOC and an Event payload missing
the mandatory field "type" are each answered 400 naming the missing field. -/
theorem C5_post_validation_witness :
    add_region dbEmpty ⟨none, some "A new region", none⟩ =
      ⟨.resp 400 (.fieldErrors (regionMissingFields ⟨none, some "A new region", none⟩)),
       dbEmpty, 0⟩ ∧
    ("type", ["Missing data for required field."]) ∈ eventMissingFields [("year", "2012")] :=
  ⟨(C5_post_validation dbEmpty ⟨none, some "A new region", none⟩ [("year", "2012")] "type"
      (Or.inl rfl) (by decide) (by decide)).1,
   (C5_post_validation dbEmpty ⟨none, some "A new region", none⟩ [("year", "2012")] "type"
      (Or.inl rfl) (by decide) (by decide)).2.2.2.2.2.1⟩

/-- C10: deleting a stored Region removes exactly the row whose NOC equals the
path key — the matched row is gone, nothing new appears, every row with a
different NOC survives, and the Event table is untouched; symmetrically,
deleting a stored Event removes only the row whose id equals the path key. -/
theorem C10_delete_frame (db : DB) (noc : String) (r : Region) (i : Nat) (e : Event)
    (hr : selectRegionsByNOC db noc = [r])
    (he : selectEventsById db i = [e]) :
    r ∉ (delete_region db noc).db.regions ∧
    (∀ x ∈ (delete_region db noc).db.regions, x ∈ db.regions) ∧
    (∀ x ∈ db.regions, x.NOC ≠ noc → x ∈ (delete_region db noc).db.regions) ∧
    (delete_region db noc).db.events = db.events ∧
    e ∉ (delete_event db i).db.events ∧
    (∀ x ∈ (delete_event db i).db.events, x ∈ db.events) ∧
    (∀ x ∈ db.events, x.id ≠ i → x ∈ (delete_event db i).db.events) ∧
    (delete_event db i).db.regions = db.regions := by
  have hrn : r.NOC = noc := by
    have hm : r ∈ selectRegionsByNOC db noc := by rw [hr]; exact List.mem_singleton.mpr rfl
    unfold selectRegionsByNOC at hm
    exact beq_iff_eq.mp (List.mem_filter.mp hm).2
  have hei : e.id = i := by
    have hm : e ∈ selectEventsById db i := by rw [he]; exact List.mem_singleton.mpr rfl
    unfold selectEventsById at hm
    have := (List.mem_filter.mp hm).2
    simpa using this
  have hdr : delete_region db noc =
      ⟨.resp 200 (.msgObj ("Region " ++ noc ++ " deleted")),
       { db with regions := db.regions.filter (fun x => !(x.NOC == noc)) }, 1⟩ := by
    simp only [delete_region, hr, scalarOne_single]
  have hde : delete_event db i =
      ⟨.resp 200 (.msgObj ("Event " ++ toString i ++ " deleted")),
       { db with events := db.events.filter (fun x => !(x.id == i)) }, 1⟩ := by
    simp only [delete_event, he, scalarOne_single]
  rw [hdr, hde]
  refine ⟨?_, ?_, ?_, rfl, ?_, ?_, ?_, rfl⟩
  · intro hmem
    have h2 := (List.mem_filter.mp hmem).2
    rw [hrn] at h2
    simp at h2
  · intro x hx
    exact (List.mem_filter.mp hx).1
  · intro x hx hne
    exact List.mem_filter.mpr ⟨hx, by simp [hne]⟩
  · intro hmem
    have h2 := (List.mem_filter.mp hmem).2
    rw [hei] at h2
    simp at h2
  · intro x hx
    exact (List.mem_filter.mp hx).1
  · intro x hx hne
    exact List.mem_filter.mpr ⟨hx, by simp [hne]⟩

/-- C10 witness: on the store holding Region NEW and Event 1, each DELETE
leaves the sibling table untouched. -/
theorem C10_delete_frame_witness :
    (delete_region dbOne "NEW").db.events = dbOne.events ∧
    (delete_event dbOne 1).db.regions = dbOne.regions :=
  ⟨(C10_delete_frame dbOne "NEW" rNEW 1 eOne rfl rfl).2.2.2.1,
   (C10_delete_frame dbOne "NEW" rNEW 1 eOne rfl rfl).2.2.2.2.2.2.2⟩

/-- GET /regions never mutates the store and never commits. -/
theorem get_regions_frame (db : DB) :
    (get_regions db).db = db ∧ (get_regions db).commits = 0 := ⟨rfl, rfl⟩

/-- GET /regions by key never mutates the store and never commits. -/
theorem get_region_frame (db : DB) (code : String) :
    (get_region db code).db = db ∧ (get_region db code).commits = 0 := by
  unfold get_region
  cases h : scalarOne (selectRegionsByNOC db code) with
  | ok r => simp
  | error e => cases e <;> simp

/-- GET /events never mutates the store and never commits. -/
theorem get_events_frame (db : DB) :
    (get_events db).db = db ∧ (get_events db).commits = 0 := ⟨rfl, rfl⟩

/-- GET /events by key never mutates the store and never commits. -/
theorem get_event_frame (db : DB) (i : Nat) :
    (get_event db i).db = db ∧ (get_event db i).commits = 0 := by
  unfold get_event
  cases h : scalarOne (selectEventsById db i) with
  | ok e => simp
  | error e => simp

/-- POST /regions commits at most once, leaves the store unchanged whenever it
did not commit, and commits exactly once on success. -/
theorem add_region_frame (db : DB) (j : RegionJson) :
    (add_region db j).commits ≤ 1 ∧
    ((add_region db j).commits = 0 → (add_region db j).db = db) ∧
    (isSuccess (add_region db j).outcome = true → (add_region db j).commits = 1) := by
  unfold add_region
  cases h1 : regionLoadFull j with
  | error msgs => simp [h1, isSuccess]
  | ok r =>
    cases h2 : insertRegionCommit db r with
    | error e => simp [h1, h2, isSuccess]
    | ok db2 => simp [h1, h2, isSuccess]

/-- A POST /regions that fails — a validation error or an escaped commit
fault — has committed nothing and left the store unchanged. -/
theorem add_region_fail_frame (db : DB) (j : RegionJson) :
    isFailure (add_region db j).outcome = true →
      (add_region db j).db = db ∧ (add_region db j).commits = 0 := by
  unfold add_region
  cases h1 : regionLoadFull j with
  | error msgs => simp [h1, isFailure]
  | ok r =>
    cases h2 : insertRegionCommit db r with
    | error e => simp [h1, h2, isFailure]
    | ok db2 => simp [h1, h2, isFailure]

/-- POST /events commits at most once, leaves the store unchanged whenever it
did not commit, and commits exactly once on success. -/
theorem add_event_frame (db : DB) (je : EventJson) :
    (add_event db je).commits ≤ 1 ∧
    ((add_event db je).commits = 0 → (add_event db je).db = db) ∧
    (isSuccess (add_event db je).outcome = true → (add_event db je).commits = 1) := by
  unfold add_event
  cases h1 : eventLoadFull je with
  | error msgs => simp [h1, isSuccess]
  | ok fs => simp [h1, isSuccess]

/-- A POST /events that fails has committed nothing and left the store
unchanged. -/
theorem add_event_fail_frame (db : DB) (je : EventJson) :
    isFailure (add_event db je).outcome = true →
      (add_event db je).db = db ∧ (add_event db je).commits = 0 := by
  unfold add_event
  cases h1 : eventLoadFull je with
  | error msgs => simp [h1, isFailure]
  | ok fs => simp [h1, isFailure]

/-- DELETE /regions commits at most once, leaves the store unchanged whenever
it did not commit, and commits exactly once on success. -/
theorem delete_region_frame (db : DB) (noc : String) :
    (delete_region db noc).commits ≤ 1 ∧
    ((delete_region db noc).commits = 0 → (delete_region db noc).db = db) ∧
    (isSuccess (delete_region db noc).outcome = true → (delete_region db noc).commits = 1) := by
  unfold delete_region
  cases h : scalarOne (selectRegionsByNOC db noc) with
  | error e => simp [h, isSuccess]
  | ok r => simp [h, isSuccess]

/-- DELETE /events commits at most once, leaves the store unchanged whenever
it did not commit, and commits exactly once on success. -/
theorem delete_event_frame (db : DB) (i : Nat) :
    (delete_event db i).commits ≤ 1 ∧
    ((delete_event db i).commits = 0 → (delete_event db i).db = db) ∧
    (isSuccess (delete_event db i).outcome = true → (delete_event db i).commits = 1) := by
  unfold delete_event
  cases h : scalarOne (selectEventsById db i) with
  | error e => simp [h, isSuccess]
  | ok e2 => simp [h, isSuccess]

/-- PATCH /regions commits at most once, leaves the store unchanged whenever
it did not commit, and commits exactly once on success. -/
theorem region_update_frame (db : DB) (noc : String) (j : RegionJson) :
    (region_update db noc j).commits ≤ 1 ∧
    ((region_update db noc j).commits = 0 → (region_update db noc j).db = db) ∧
    (isSuccess (region_update db noc j).outcome = true → (region_update db noc j).commits = 1) := by
  unfold region_update
  cases h1 : scalarOneOrNone (selectRegionsByNOC db noc) with
  | error e => simp [h1, isSuccess]
  | ok o =>
    cases o with
    | some existing =>
      cases h2 : updateRegionCommit db noc (regionPatchLoad j existing) with
      | error e => simp [h1, h2, isSuccess]
      | ok db2 =>
        cases h3 : scalarOneOrNone (selectRegionsByNOC db2 noc) with
        | error e => simp [h1, h2, h3, isSuccess]
        | ok o2 => cases o2 <;> simp [h1, h2, h3, isSuccess]
    | none =>
      obtain ⟨jn, jr, jns⟩ := j
      cases jn with
      | none => simp [h1, isSuccess]
      | some n =>
        cases jr with
        | none => simp [h1, isSuccess]
        | some r =>
          cases h2 : insertRegionCommit db ⟨n, r, jns.getD none⟩ with
          | error e => simp [h1, h2, isSuccess]
          | ok db2 =>
            cases h3 : scalarOneOrNone (selectRegionsByNOC db2 noc) with
            | error e => simp [h1, h2, h3, isSuccess]
            | ok o2 => cases o2 <;> simp [h1, h2, h3, isSuccess]

/-- PATCH /events commits at most once (it always raises at its lookup before
any commit), leaves the store unchanged whenever it did not commit, and never
returns success. -/
theorem event_update_frame (db : DB) (eid : String) (je : EventJson) :
    (event_update db eid je).commits ≤ 1 ∧
    ((event_update db eid je).commits = 0 → (event_update db eid je).db = db) ∧
    (isSuccess (event_update db eid je).outcome = true → (event_update db eid je).commits = 1) := by
  rw [event_update_raises]
  exact ⟨Nat.zero_le 1, fun _ => rfl, fun h => by simp [isSuccess] at h⟩

/-- C8: every handler performs at most one commit; a handler that committed
nothing has left the store unchanged, so any failure occurring before the
commit is atomic for the request; in particular a POST whose outcome is a
failure — a validation error or an escaped commit fault — has committed
nothing and left the store unchanged. -/
theorem C8_at_most_one_commit (db : DB) (code noc eid : String) (i k : Nat)
    (j : RegionJson) (je : EventJson) :
    ((get_regions db).commits ≤ 1 ∧ ((get_regions db).commits = 0 → (get_regions db).db = db)) ∧
    ((get_region db code).commits ≤ 1 ∧
      ((get_region db code).commits = 0 → (get_region db code).db = db)) ∧
    ((get_events db).commits ≤ 1 ∧ ((get_events db).commits = 0 → (get_events db).db = db)) ∧
    ((get_event db i).commits ≤ 1 ∧ ((get_event db i).commits = 0 → (get_event db i).db = db)) ∧
    ((add_region db j).commits ≤ 1 ∧
      ((add_region db j).commits = 0 → (add_region db j).db = db)) ∧
    ((add_event db je).commits ≤ 1 ∧
      ((add_event db je).commits = 0 → (add_event db je).db = db)) ∧
    ((delete_region db noc).commits ≤ 1 ∧
      ((delete_region db noc).commits = 0 → (delete_region db noc).db = db)) ∧
    ((delete_event db k).commits ≤ 1 ∧
      ((delete_event db k).commits = 0 → (delete_event db k).db = db)) ∧
    ((region_update db noc j).commits ≤ 1 ∧
      ((region_update db noc j).commits = 0 → (region_update db noc j).db = db)) ∧
    ((event_update db eid je).commits ≤ 1 ∧
      ((event_update db eid je).commits = 0 → (event_update db eid je).db = db)) ∧
    (isFailure (add_region db j).outcome = true →
      (add_region db j).db = db ∧ (add_region db j).commits = 0) ∧
    (isFailure (add_event db je).outcome = true →
      (add_event db je).db = db ∧ (add_event db je).commits = 0) := by
  refine ⟨⟨Nat.zero_le 1, fun _ => (get_regions_frame db).1⟩,
    ⟨(get_region_frame db code).2 ▸ Nat.zero_le 1, fun _ => (get_region_frame db code).1⟩,
    ⟨Nat.zero_le 1, fun _ => (get_events_frame db).1⟩,
    ⟨(get_event_frame db i).2 ▸ Nat.zero_le 1, fun _ => (get_event_frame db i).1⟩,
    ⟨(add_region_frame db j).1, (add_region_frame db j).2.1⟩,
    ⟨(add_event_frame db je).1, (add_event_frame db je).2.1⟩,
    ⟨(delete_region_frame db noc).1, (delete_region_frame db noc).2.1⟩,
    ⟨(delete_event_frame db k).1, (delete_event_frame db k).2.1⟩,
    ⟨(region_update_frame db noc j).1, (region_update_frame db noc j).2.1⟩,
    ⟨(event_update_frame db eid je).1, (event_update_frame db eid je).2.1⟩,
    add_region_fail_frame db j, add_event_fail_frame db je⟩

/-- C8 witness: on the empty store, a POST /regions with an empty body fails
validation, commits nothing and leaves the store unchanged, and a GET by key
commits nothing. -/
theorem C8_at_most_one_commit_witness :
    ((add_region dbEmpty ⟨none, none, none⟩).db = dbEmpty ∧
      (add_region dbEmpty ⟨none, none, none⟩).commits = 0) ∧
    (get_region dbEmpty "XX").commits ≤ 1 :=
  ⟨(C8_at_most_one_commit dbEmpty "XX" "NEW" "1" 1 1 ⟨none, none, none⟩ []).2.2.2.2.2.2.2.2.2.2.1 rfl,
   (C8_at_most_one_commit dbEmpty "XX" "NEW" "1" 1 1 ⟨none, none, none⟩ []).2.1.1⟩

/-- C9: the four GET handlers mutate nothing — the store afterwards equals the
store before and no commit happens — while each POST/PATCH/DELETE handler that
returns a success response has performed exactly one commit. -/
theorem C9_commit_discipline (db : DB) (code noc eid : String) (i k : Nat)
    (j : RegionJson) (je : EventJson) :
    ((get_regions db).db = db ∧ (get_regions db).commits = 0) ∧
    ((get_region db code).db = db ∧ (get_region db code).commits = 0) ∧
    ((get_events db).db = db ∧ (get_events db).commits = 0) ∧
    ((get_event db i).db = db ∧ (get_event db i).commits = 0) ∧
    (isSuccess (add_region db j).outcome = true → (add_region db j).commits = 1) ∧
    (isSuccess (add_event db je).outcome = true → (add_event db je).commits = 1) ∧
    (isSuccess (delete_region db noc).outcome = true → (delete_region db noc).commits = 1) ∧
    (isSuccess (delete_event db k).outcome = true → (delete_event db k).commits = 1) ∧
    (isSuccess (region_update db noc j).outcome = true → (region_update db noc j).commits = 1) ∧
    (isSuccess (event_update db eid je).outcome = true → (event_update db eid je).commits = 1) :=
  ⟨get_regions_frame db, get_region_frame db code, get_events_frame db, get_event_frame db i,
   (add_region_frame db j).2.2, (add_event_frame db je).2.2,
   (delete_region_frame db noc).2.2, (delete_event_frame db k).2.2,
   (region_update_frame db noc j).2.2, (event_update_frame db eid je).2.2⟩

/-- C9 witness: a GET on the populated store changes nothing, and the
successful creation of Region NEW on the empty store commits exactly once. -/
theorem C9_commit_discipline_witness :
    ((get_regions dbOne).db = dbOne ∧ (get_regions dbOne).commits = 0) ∧
    (add_region dbEmpty ⟨some "NEW", some "A new region", none⟩).commits = 1 :=
  ⟨(C9_commit_discipline dbOne "NEW" "NEW" "1" 1 1 ⟨some "NEW", some "A new region", none⟩ []).1,
   (C9_commit_discipline dbEmpty "NEW" "NEW" "1" 1 1
      ⟨some "NEW", some "A new region", none⟩ []).2.2.2.2.1 rfl⟩

end Paralympics

